import Mathlib

/-!
Verification of the AIOps self-healing agent (agent.py, healer.py,
predictor.py) as a shallow embedding.  The agent state consists of the
list of cluster nodes and the greylist of suspected node IDs; the healer
performs provisioning, membership join/leave and notification, each of
which may fail, modelled by a `RemediationOutcome` oracle.  External side
effects are recorded in a `HealerCall` trace.
-/

set_option maxHeartbeats 1000000

/-- A cluster node, as the dicts in config.CLUSTER_NODES: a stable unique
id and an address. -/
structure Node where
  id : String
  address : String
deriving DecidableEq

/-- The mutable agent state: `current_nodes` (AIOpsAgent.current_nodes,
a Python list) and `greylisted_nodes` (AIOpsAgent.greylisted_nodes, a
Python set of node ids). -/
structure AgentState where
  current_nodes : List Node
  greylisted_nodes : Finset String
deriving DecidableEq

/-- A classifier result, as the dict returned by predictor.predict_failure:
a severity string ("none", "warning" or "critical") and a reason. -/
structure Prediction where
  severity : String
  reason : String
deriving DecidableEq

/-- Outcome oracle for the external remediation calls made by one healer
invocation: whether provisioning, the raft join and the raft leave succeed
(in the source these are the fallible calls guarded by try/except), and
the node the provisioner returns when it succeeds. -/
structure RemediationOutcome where
  provisionOk : Bool
  joinOk : Bool
  leaveOk : Bool
  newNode : Node
deriving DecidableEq

/-- One recorded external effect of the healer: a successful provisioning,
a successful raft join/leave, or a sent alert (healer.send_alert). -/
inductive HealerCall where
  | provision (n : Node)
  | join (addr : String)
  | leave (addr : String)
  | notify (recipient : String) (node_id : String) (reason : String)
      (severity : String) (is_follow_up : Bool)
deriving DecidableEq

/-- The per-node input of one check cycle: the node id of the health
report, the classifier prediction for it, and the outcome oracle for any
remediation the agent performs on it. -/
structure CycleInput where
  node_id : String
  prediction : Prediction
  outcome : RemediationOutcome
deriving DecidableEq

/-- config.ALERTING_CONFIG enabled flag. -/
def ALERTING_ENABLED : Bool := true

/-- config.ALERTING_CONFIG recipient_email. -/
def RECIPIENT_EMAIL : String := "admin@distributedsystem.com"

/-- healer.send_alert: returns nothing when alerting is disabled or the
severity is neither "critical" nor "warning"; otherwise records one
notification. -/
def send_alert (enabled : Bool) (recipient : String) (node_id : String)
    (reason : String) (severity : String) (is_follow_up : Bool) : List HealerCall :=
  if enabled = false then []
  else if severity = "critical" then
    [HealerCall.notify recipient node_id reason severity is_follow_up]
  else if severity = "warning" then
    [HealerCall.notify recipient node_id reason severity is_follow_up]
  else []

/-- healer.handle_greylist_expansion: sends the first-time warning alert,
then provisions a new node and joins it to the raft cluster inside a
try/except.  Returns the new node on success and none when provisioning
or the join raises; the trace records the effects that happened. -/
def handle_greylist_expansion (out : RemediationOutcome) (node_info : Node)
    (reason : String) : Option Node × List HealerCall :=
  let alertCalls := send_alert ALERTING_ENABLED RECIPIENT_EMAIL node_info.id reason "warning" false
  if out.provisionOk then
    if out.joinOk then
      (some out.newNode,
        alertCalls ++ [HealerCall.provision out.newNode, HealerCall.join out.newNode.address])
    else
      (none, alertCalls ++ [HealerCall.provision out.newNode])
  else
    (none, alertCalls)

/-- healer.handle_critical_failure: sends the critical alert, then inside
a try/except provisions a new node, joins it to the raft cluster and
removes the failing node from the raft cluster.  Returns the new node
only when all three succeed; any raise yields none, with the effects that
already happened kept in the trace. -/
def handle_critical_failure (out : RemediationOutcome) (failing_node : Node)
    (reason : String) : Option Node × List HealerCall :=
  let alertCalls := send_alert ALERTING_ENABLED RECIPIENT_EMAIL failing_node.id reason "critical" false
  if out.provisionOk then
    if out.joinOk then
      if out.leaveOk then
        (some out.newNode,
          alertCalls ++ [HealerCall.provision out.newNode,
            HealerCall.join out.newNode.address, HealerCall.leave failing_node.address])
      else
        (none, alertCalls ++ [HealerCall.provision out.newNode,
          HealerCall.join out.newNode.address])
    else
      (none, alertCalls ++ [HealerCall.provision out.newNode])
  else
    (none, alertCalls)

/-- AIOpsAgent._find_node_config: first node in current_nodes whose id
matches, none otherwise. -/
def _find_node_config (nodes : List Node) (node_id : String) : Option Node :=
  nodes.find? (fun n => n.id == node_id)

/-- AIOpsAgent._handle_critical_node: looks up the failing node config
(returning unchanged when absent), calls healer.handle_critical_failure,
and on success removes the failing node from current_nodes, appends the
new node, and discards the failing id from the greylist. -/
def _handle_critical_node (out : RemediationOutcome) (st : AgentState)
    (node_id reason : String) : AgentState × List HealerCall :=
  match _find_node_config st.current_nodes node_id with
  | none => (st, [])
  | some cfg =>
    let res := handle_critical_failure out cfg reason
    match res.1 with
    | some newNode =>
      (AgentState.mk ((st.current_nodes.filter (fun n => n.id != node_id)) ++ [newNode])
        (st.greylisted_nodes.erase node_id), res.2)
    | none => (st, res.2)

/-- AIOpsAgent._handle_warning_node: looks up the node config (returning
unchanged when absent); for a node not yet greylisted it first adds the
id to the greylist, then calls healer.handle_greylist_expansion and on
success appends the new node to current_nodes; for an already greylisted
node it only sends a follow-up alert. -/
def _handle_warning_node (out : RemediationOutcome) (st : AgentState)
    (node_id reason : String) : AgentState × List HealerCall :=
  match _find_node_config st.current_nodes node_id with
  | none => (st, [])
  | some cfg =>
    if node_id ∉ st.greylisted_nodes then
      let gl := insert node_id st.greylisted_nodes
      let res := handle_greylist_expansion out cfg reason
      match res.1 with
      | some newNode =>
        (AgentState.mk (st.current_nodes ++ [newNode]) gl, res.2)
      | none => (AgentState.mk st.current_nodes gl, res.2)
    else
      (st, send_alert ALERTING_ENABLED RECIPIENT_EMAIL node_id reason "warning" true)

/-- The healthy branch of AIOpsAgent.run_check_cycle: a node whose
severity is neither "critical" nor "warning" is removed from the greylist
when present there, otherwise nothing happens. -/
def _handle_healthy (st : AgentState) (node_id : String) : AgentState :=
  if node_id ∈ st.greylisted_nodes then
    AgentState.mk st.current_nodes (st.greylisted_nodes.erase node_id)
  else st

/-- AIOpsAgent.run_check_cycle, over the per-node inputs in report order:
a "critical" severity is handled and then the loop breaks; a "warning"
severity is handled and the loop continues; anything else takes the
healthy branch.  Returns the final state and the concatenated effect
trace. -/
def process_reports : List CycleInput → AgentState → AgentState × List HealerCall
  | [], st => (st, [])
  | r :: rest, st =>
    if r.prediction.severity = "critical" then
      _handle_critical_node r.outcome st r.node_id r.prediction.reason
    else if r.prediction.severity = "warning" then
      let res := _handle_warning_node r.outcome st r.node_id r.prediction.reason
      let res2 := process_reports rest res.1
      (res2.1, res.2 ++ res2.2)
    else
      process_reports rest (_handle_healthy st r.node_id)

/-- The ids of a node list. -/
def nodeIds (ns : List Node) : List String := ns.map (fun n => n.id)

/-- The spec invariant: every greylisted id is the id of a current node. -/
def Invariant (st : AgentState) : Prop :=
  ∀ g ∈ st.greylisted_nodes, g ∈ nodeIds st.current_nodes

instance (st : AgentState) : Decidable (Invariant st) := by
  unfold Invariant; infer_instance

/-- predictor classifier call outcomes in live mode: a well-formed JSON
prediction, a JSONDecodeError on the response body, or one of the caught
API exceptions (connection, rate limit, authentication, other). -/
inductive ClassifierOutcome where
  | ok (content : Prediction)
  | invalidJson
  | apiConnectionError
  | rateLimitError
  | authenticationError
  | otherError
deriving DecidableEq

/-- predictor.predict_failure in live mode, as a function of the call
outcome: a well-formed response is returned as is; a JSON decode failure
and every caught exception produce a severity "none" fallback result. -/
def predict_failure_live : ClassifierOutcome → Prediction
  | ClassifierOutcome.ok p => p
  | ClassifierOutcome.invalidJson =>
      Prediction.mk "none" "Prediction failed due to invalid LLM response format."
  | _ => Prediction.mk "none" "Prediction failed due to an API error."

/-- Whether a classifier call outcome is a failure (anything but a
well-formed response). -/
def classifierFailed : ClassifierOutcome → Bool
  | ClassifierOutcome.ok _ => false
  | _ => true

/-- Whether a healer call changes membership or capacity (provision,
join, leave) rather than only notifying. -/
def isMembershipCall : HealerCall → Bool
  | HealerCall.provision _ => true
  | HealerCall.join _ => true
  | HealerCall.leave _ => true
  | HealerCall.notify _ _ _ _ _ => false

/-! ## Helper lemmas -/

lemma mem_nodeIds {ns : List Node} {g : String} :
    g ∈ nodeIds ns ↔ ∃ n ∈ ns, n.id = g := by
  simp [nodeIds]

lemma find_config_eq {ns : List Node} {nid : String} {cfg : Node}
    (h : _find_node_config ns nid = some cfg) : cfg ∈ ns ∧ cfg.id = nid := by
  unfold _find_node_config at h
  refine ⟨List.mem_of_find?_eq_some h, ?_⟩
  have hp := List.find?_some h
  simpa using hp

lemma invariant_handle_critical (out : RemediationOutcome) (st : AgentState)
    (nid reason : String) (h : Invariant st) :
    Invariant (_handle_critical_node out st nid reason).1 := by
  unfold _handle_critical_node
  split
  · exact h
  · dsimp only
    split
    · intro g hg
      rw [Finset.mem_erase] at hg
      obtain ⟨hgne, hgmem⟩ := hg
      have hmem := h g hgmem
      rw [mem_nodeIds] at hmem ⊢
      obtain ⟨n, hn, hid⟩ := hmem
      refine ⟨n, List.mem_append_left _ (List.mem_filter.mpr ⟨hn, ?_⟩), hid⟩
      rw [bne_iff_ne, hid]
      exact hgne
    · exact h

lemma invariant_handle_warning (out : RemediationOutcome) (st : AgentState)
    (nid reason : String) (h : Invariant st) :
    Invariant (_handle_warning_node out st nid reason).1 := by
  unfold _handle_warning_node
  split
  · exact h
  · rename_i cfg hf
    have hcfg := find_config_eq hf
    split
    · dsimp only
      split
      · intro g hg
        rw [Finset.mem_insert] at hg
        rw [mem_nodeIds]
        rcases hg with rfl | hg
        · exact ⟨cfg, List.mem_append_left _ hcfg.1, hcfg.2⟩
        · have hmem := h g hg
          rw [mem_nodeIds] at hmem
          obtain ⟨n, hn, hid⟩ := hmem
          exact ⟨n, List.mem_append_left _ hn, hid⟩
      · intro g hg
        rw [Finset.mem_insert] at hg
        rcases hg with rfl | hg
        · rw [mem_nodeIds]
          exact ⟨cfg, hcfg.1, hcfg.2⟩
        · exact h g hg
    · exact h

lemma invariant_handle_healthy (st : AgentState) (nid : String)
    (h : Invariant st) : Invariant (_handle_healthy st nid) := by
  unfold _handle_healthy
  split
  · intro g hg
    exact h g (Finset.mem_of_mem_erase hg)
  · exact h

lemma invariant_process (inputs : List CycleInput) (st : AgentState)
    (h : Invariant st) : Invariant (process_reports inputs st).1 := by
  induction inputs generalizing st with
  | nil => exact h
  | cons r rest ih =>
    unfold process_reports
    split
    · exact invariant_handle_critical _ _ _ _ h
    · split
      · exact ih _ (invariant_handle_warning _ _ _ _ h)
      · exact ih _ (invariant_handle_healthy _ _ h)

lemma expansion_fail (out : RemediationOutcome) (n : Node) (reason : String)
    (hfail : out.provisionOk = false ∨ out.joinOk = false) :
    (handle_greylist_expansion out n reason).1 = none := by
  unfold handle_greylist_expansion
  rcases hfail with h1 | h1
  · simp [h1]
  · cases hp : out.provisionOk <;> simp [h1, hp]

lemma expansion_ok (out : RemediationOutcome) (n : Node) (reason : String)
    (hp : out.provisionOk = true) (hj : out.joinOk = true) :
    (handle_greylist_expansion out n reason).1 = some out.newNode := by
  unfold handle_greylist_expansion
  simp [hp, hj]

lemma critical_fail (out : RemediationOutcome) (n : Node) (reason : String)
    (hfail : out.provisionOk = false ∨ out.joinOk = false) :
    (handle_critical_failure out n reason).1 = none := by
  unfold handle_critical_failure
  rcases hfail with h1 | h1
  · simp [h1]
  · cases hp : out.provisionOk <;> simp [h1, hp]

lemma critical_leave_fail (out : RemediationOutcome) (n : Node) (reason : String)
    (hp : out.provisionOk = true) (hj : out.joinOk = true) (hl : out.leaveOk = false) :
    handle_critical_failure out n reason
      = (none, send_alert ALERTING_ENABLED RECIPIENT_EMAIL n.id reason "critical" false
          ++ [HealerCall.provision out.newNode, HealerCall.join out.newNode.address]) := by
  unfold handle_critical_failure
  simp [hp, hj, hl]

lemma critical_ok (out : RemediationOutcome) (n : Node) (reason : String)
    (hp : out.provisionOk = true) (hj : out.joinOk = true) (hl : out.leaveOk = true) :
    (handle_critical_failure out n reason).1 = some out.newNode := by
  unfold handle_critical_failure
  simp [hp, hj, hl]

lemma handle_critical_no_cfg (out : RemediationOutcome) (st : AgentState)
    (nid reason : String)
    (hf : _find_node_config st.current_nodes nid = none) :
    _handle_critical_node out st nid reason = (st, []) := by
  unfold _handle_critical_node
  rw [hf]

lemma handle_critical_eq_some (out : RemediationOutcome) (st : AgentState)
    (nid reason : String) (cfg : Node)
    (hf : _find_node_config st.current_nodes nid = some cfg)
    (hres : (handle_critical_failure out cfg reason).1 = some out.newNode) :
    _handle_critical_node out st nid reason
      = (AgentState.mk ((st.current_nodes.filter (fun n => n.id != nid)) ++ [out.newNode])
          (st.greylisted_nodes.erase nid), (handle_critical_failure out cfg reason).2) := by
  unfold _handle_critical_node
  rw [hf]
  dsimp only
  rw [hres]

lemma handle_critical_eq_none (out : RemediationOutcome) (st : AgentState)
    (nid reason : String) (cfg : Node)
    (hf : _find_node_config st.current_nodes nid = some cfg)
    (hres : (handle_critical_failure out cfg reason).1 = none) :
    _handle_critical_node out st nid reason
      = (st, (handle_critical_failure out cfg reason).2) := by
  unfold _handle_critical_node
  rw [hf]
  dsimp only
  rw [hres]

lemma handle_warning_no_cfg (out : RemediationOutcome) (st : AgentState)
    (nid reason : String)
    (hf : _find_node_config st.current_nodes nid = none) :
    _handle_warning_node out st nid reason = (st, []) := by
  unfold _handle_warning_node
  rw [hf]

lemma handle_warning_expand_some (out : RemediationOutcome) (st : AgentState)
    (nid reason : String) (cfg : Node)
    (hf : _find_node_config st.current_nodes nid = some cfg)
    (hng : nid ∉ st.greylisted_nodes)
    (hres : (handle_greylist_expansion out cfg reason).1 = some out.newNode) :
    _handle_warning_node out st nid reason
      = (AgentState.mk (st.current_nodes ++ [out.newNode]) (insert nid st.greylisted_nodes),
          (handle_greylist_expansion out cfg reason).2) := by
  unfold _handle_warning_node
  rw [hf]
  dsimp only
  rw [if_pos hng]
  rw [hres]

lemma handle_warning_expand_none (out : RemediationOutcome) (st : AgentState)
    (nid reason : String) (cfg : Node)
    (hf : _find_node_config st.current_nodes nid = some cfg)
    (hng : nid ∉ st.greylisted_nodes)
    (hres : (handle_greylist_expansion out cfg reason).1 = none) :
    _handle_warning_node out st nid reason
      = (AgentState.mk st.current_nodes (insert nid st.greylisted_nodes),
          (handle_greylist_expansion out cfg reason).2) := by
  unfold _handle_warning_node
  rw [hf]
  dsimp only
  rw [if_pos hng]
  rw [hres]

lemma handle_warning_realert (out : RemediationOutcome) (st : AgentState)
    (nid reason : String) (cfg : Node)
    (hf : _find_node_config st.current_nodes nid = some cfg)
    (hg : nid ∈ st.greylisted_nodes) :
    _handle_warning_node out st nid reason
      = (st, send_alert ALERTING_ENABLED RECIPIENT_EMAIL nid reason "warning" true) := by
  unfold _handle_warning_node
  rw [hf]
  dsimp only
  rw [if_neg (by simpa using hg)]

/-! ## Claim theorems -/

/-- Claim C1: for every cycle the greylist is a subset of the ids of the
nodes in the cluster state both before and after processing: the initial
state with an empty greylist satisfies the invariant, and processing any
list of per-node inputs (warning expansion, re-alert, critical
replacement, recovery, no-op) preserves greylist ⊆ keys(nodes). -/
theorem greylist_subset_nodes :
    (∀ ns : List Node, Invariant (AgentState.mk ns ∅)) ∧
    ∀ (inputs : List CycleInput) (st : AgentState),
      Invariant st → Invariant (process_reports inputs st).1 := by
  constructor
  · intro ns g hg
    exact absurd hg (Finset.not_mem_empty g)
  · exact invariant_process

/-- Witness for C1 at a concrete cycle: one node, one warning input. -/
theorem greylist_subset_nodes_witness :
    Invariant (process_reports
      [CycleInput.mk "node-1" (Prediction.mk "warning" "r")
        (RemediationOutcome.mk true true true (Node.mk "node-new-1" "192.168.1.201"))]
      (AgentState.mk [Node.mk "node-1" "192.168.1.101"] ∅)).1 :=
  greylist_subset_nodes.2 _ _ (by decide)

/-- Claim C2 counterexample: one node "node-1", empty greylist, a warning
for "node-1" whose provisioning fails.  The nodes list is unchanged but
"node-1" IS added to the greylist, contrary to the claim that the
greylist is unchanged on provisioning failure. -/
theorem warning_provision_fail_cex :
    "node-1" ∈ (_handle_warning_node
        (RemediationOutcome.mk false false false (Node.mk "node-new-1" "192.168.1.201"))
        (AgentState.mk [Node.mk "node-1" "192.168.1.101"] ∅)
        "node-1" "reason").1.greylisted_nodes ∧
    (_handle_warning_node
        (RemediationOutcome.mk false false false (Node.mk "node-new-1" "192.168.1.201"))
        (AgentState.mk [Node.mk "node-1" "192.168.1.101"] ∅)
        "node-1" "reason").1.current_nodes
      = [Node.mk "node-1" "192.168.1.101"] := by
  constructor
  · decide
  · decide

/-- Claim C2 (amended): for a node present in the cluster state and not
greylisted that classifies as Warning, if provisioning or the join fails
during Expand then the nodes list is unchanged — but the node id IS added
to the greylist before the remediation attempt, so the next cycle sees it
as already greylisted (re-alert) rather than retrying first-time. -/
theorem warning_provision_fail_state (out : RemediationOutcome) (st : AgentState)
    (nid reason : String) (cfg : Node)
    (hf : _find_node_config st.current_nodes nid = some cfg)
    (hng : nid ∉ st.greylisted_nodes)
    (hfail : out.provisionOk = false ∨ out.joinOk = false) :
    (_handle_warning_node out st nid reason).1.current_nodes = st.current_nodes ∧
    (_handle_warning_node out st nid reason).1.greylisted_nodes
      = insert nid st.greylisted_nodes := by
  rw [handle_warning_expand_none out st nid reason cfg hf hng
    (expansion_fail out cfg reason hfail)]
  exact ⟨rfl, rfl⟩

/-- Witness for the amended C2 at a concrete input. -/
theorem warning_provision_fail_state_witness :
    (_handle_warning_node
        (RemediationOutcome.mk false true true (Node.mk "node-new-1" "192.168.1.201"))
        (AgentState.mk [Node.mk "node-1" "192.168.1.101"] ∅)
        "node-1" "r").1.current_nodes = [Node.mk "node-1" "192.168.1.101"] ∧
    (_handle_warning_node
        (RemediationOutcome.mk false true true (Node.mk "node-new-1" "192.168.1.201"))
        (AgentState.mk [Node.mk "node-1" "192.168.1.101"] ∅)
        "node-1" "r").1.greylisted_nodes = insert "node-1" ∅ :=
  warning_provision_fail_state
    (RemediationOutcome.mk false true true (Node.mk "node-new-1" "192.168.1.201"))
    (AgentState.mk [Node.mk "node-1" "192.168.1.101"] ∅)
    "node-1" "r" (Node.mk "node-1" "192.168.1.101")
    (by decide) (by decide) (Or.inl rfl)

/-- Claim C8: in every cycle, a node classifying as "critical" stops the
evaluation of all remaining inputs: processing the whole cycle equals
processing just that one input, so at most one critical remediation is
processed per cycle and later nodes are deferred. -/
theorem critical_stops_cycle (r : CycleInput) (rest : List CycleInput)
    (st : AgentState) (h : r.prediction.severity = "critical") :
    process_reports (r :: rest) st = process_reports [r] st := by
  simp [process_reports, h]

/-- Witness for C8 at a concrete cycle with a second critical node. -/
theorem critical_stops_cycle_witness :
    process_reports
      [CycleInput.mk "node-1" (Prediction.mk "critical" "r1")
        (RemediationOutcome.mk true true true (Node.mk "node-new-1" "192.168.1.201")),
       CycleInput.mk "node-2" (Prediction.mk "critical" "r2")
        (RemediationOutcome.mk true true true (Node.mk "node-new-2" "192.168.1.202"))]
      (AgentState.mk [Node.mk "node-1" "192.168.1.101", Node.mk "node-2" "192.168.1.102"] ∅)
    = process_reports
      [CycleInput.mk "node-1" (Prediction.mk "critical" "r1")
        (RemediationOutcome.mk true true true (Node.mk "node-new-1" "192.168.1.201"))]
      (AgentState.mk [Node.mk "node-1" "192.168.1.101", Node.mk "node-2" "192.168.1.102"] ∅) :=
  critical_stops_cycle
    (CycleInput.mk "node-1" (Prediction.mk "critical" "r1")
      (RemediationOutcome.mk true true true (Node.mk "node-new-1" "192.168.1.201")))
    [CycleInput.mk "node-2" (Prediction.mk "critical" "r2")
      (RemediationOutcome.mk true true true (Node.mk "node-new-2" "192.168.1.202"))]
    (AgentState.mk [Node.mk "node-1" "192.168.1.101", Node.mk "node-2" "192.168.1.102"] ∅)
    rfl

/-- Claim C3: for a node present in the cluster state that classifies as
Critical, after a successful Replace (provision, join and leave all
succeed) the failing node id is no longer among the node ids, the newly
provisioned node is a member, and the failing id is not greylisted —
regardless of the prior greylist contents. -/
theorem critical_replace_success (out : RemediationOutcome) (st : AgentState)
    (nid reason : String) (cfg : Node)
    (hf : _find_node_config st.current_nodes nid = some cfg)
    (hp : out.provisionOk = true) (hj : out.joinOk = true) (hl : out.leaveOk = true)
    (hne : out.newNode.id ≠ nid) :
    nid ∉ nodeIds (_handle_critical_node out st nid reason).1.current_nodes ∧
    out.newNode ∈ (_handle_critical_node out st nid reason).1.current_nodes ∧
    nid ∉ (_handle_critical_node out st nid reason).1.greylisted_nodes := by
  rw [handle_critical_eq_some out st nid reason cfg hf (critical_ok out cfg reason hp hj hl)]
  refine ⟨?_, ?_, ?_⟩
  · intro hmem
    rw [mem_nodeIds] at hmem
    obtain ⟨n, hn, hid⟩ := hmem
    rcases List.mem_append.mp hn with hnf | hns
    · have hb := (List.mem_filter.mp hnf).2
      rw [bne_iff_ne] at hb
      exact hb hid
    · rw [List.mem_singleton] at hns
      subst hns
      exact hne hid
  · exact List.mem_append_right _ (List.mem_singleton_self _)
  · exact Finset.not_mem_erase nid _

/-- Witness for C3 at a concrete input with the failing node greylisted. -/
theorem critical_replace_success_witness :
    "node-1" ∉ nodeIds (_handle_critical_node
        (RemediationOutcome.mk true true true (Node.mk "node-new-1" "192.168.1.201"))
        (AgentState.mk [Node.mk "node-1" "192.168.1.101"] {"node-1"})
        "node-1" "r").1.current_nodes ∧
    Node.mk "node-new-1" "192.168.1.201" ∈ (_handle_critical_node
        (RemediationOutcome.mk true true true (Node.mk "node-new-1" "192.168.1.201"))
        (AgentState.mk [Node.mk "node-1" "192.168.1.101"] {"node-1"})
        "node-1" "r").1.current_nodes ∧
    "node-1" ∉ (_handle_critical_node
        (RemediationOutcome.mk true true true (Node.mk "node-new-1" "192.168.1.201"))
        (AgentState.mk [Node.mk "node-1" "192.168.1.101"] {"node-1"})
        "node-1" "r").1.greylisted_nodes :=
  critical_replace_success
    (RemediationOutcome.mk true true true (Node.mk "node-new-1" "192.168.1.201"))
    (AgentState.mk [Node.mk "node-1" "192.168.1.101"] {"node-1"})
    "node-1" "r" (Node.mk "node-1" "192.168.1.101")
    (by decide) rfl rfl rfl (by decide)

/-- Claim C4: for a Replace attempt on a node present in the cluster
state in which provisioning or the join fails, the whole agent state is
unchanged (the failing node remains, no partial membership change) and
the healer reports the remediation as failed (returns none). -/
theorem critical_provision_fail_state (out : RemediationOutcome) (st : AgentState)
    (nid reason : String) (cfg : Node)
    (hf : _find_node_config st.current_nodes nid = some cfg)
    (hfail : out.provisionOk = false ∨ out.joinOk = false) :
    (_handle_critical_node out st nid reason).1 = st ∧
    (handle_critical_failure out cfg reason).1 = none := by
  have hres := critical_fail out cfg reason hfail
  rw [handle_critical_eq_none out st nid reason cfg hf hres]
  exact ⟨rfl, hres⟩

/-- Witness for C4 at a concrete input with a failing join. -/
theorem critical_provision_fail_state_witness :
    (_handle_critical_node
        (RemediationOutcome.mk true false true (Node.mk "node-new-1" "192.168.1.201"))
        (AgentState.mk [Node.mk "node-1" "192.168.1.101"] ∅)
        "node-1" "r").1
      = AgentState.mk [Node.mk "node-1" "192.168.1.101"] ∅ ∧
    (handle_critical_failure
        (RemediationOutcome.mk true false true (Node.mk "node-new-1" "192.168.1.201"))
        (Node.mk "node-1" "192.168.1.101") "r").1 = none :=
  critical_provision_fail_state
    (RemediationOutcome.mk true false true (Node.mk "node-new-1" "192.168.1.201"))
    (AgentState.mk [Node.mk "node-1" "192.168.1.101"] ∅)
    "node-1" "r" (Node.mk "node-1" "192.168.1.101")
    (by decide) (Or.inr rfl)

/-- Claim C5 counterexample: one node "node-1", a critical classification,
provision and join succeed but the leave fails.  The healer reports
failure and the agent state is unchanged: the new node "node-new-1" is
NOT present in current_nodes, contrary to the claim that the newly added
node IS present in nodes. -/
theorem critical_leave_fail_cex :
    "node-new-1" ∉ nodeIds (_handle_critical_node
        (RemediationOutcome.mk true true false (Node.mk "node-new-1" "192.168.1.201"))
        (AgentState.mk [Node.mk "node-1" "192.168.1.101"] ∅)
        "node-1" "r").1.current_nodes ∧
    Node.mk "node-1" "192.168.1.101" ∈ (_handle_critical_node
        (RemediationOutcome.mk true true false (Node.mk "node-new-1" "192.168.1.201"))
        (AgentState.mk [Node.mk "node-1" "192.168.1.101"] ∅)
        "node-1" "r").1.current_nodes := by
  constructor
  · decide
  · decide

/-- Claim C5 (amended): for a Replace attempt on a node present in the
cluster state in which provision and join succeed but the leave fails,
the operation is reported failed (none), the agent state is unchanged —
the old node is still in current_nodes and the new node is NOT recorded
there — while the successful raft join of the new node remains in the
effect trace (the duplicate capacity lives in the external membership,
not in the nodes mapping). -/
theorem critical_leave_fail_state (out : RemediationOutcome) (st : AgentState)
    (nid reason : String) (cfg : Node)
    (hf : _find_node_config st.current_nodes nid = some cfg)
    (hp : out.provisionOk = true) (hj : out.joinOk = true) (hl : out.leaveOk = false) :
    (_handle_critical_node out st nid reason).1 = st ∧
    (handle_critical_failure out cfg reason).1 = none ∧
    HealerCall.join out.newNode.address ∈ (_handle_critical_node out st nid reason).2 := by
  have heq := critical_leave_fail out cfg reason hp hj hl
  have hres : (handle_critical_failure out cfg reason).1 = none := by rw [heq]
  rw [handle_critical_eq_none out st nid reason cfg hf hres]
  refine ⟨rfl, hres, ?_⟩
  rw [heq]
  simp

/-- Witness for the amended C5 at a concrete input. -/
theorem critical_leave_fail_state_witness :
    (_handle_critical_node
        (RemediationOutcome.mk true true false (Node.mk "node-new-2" "192.168.1.202"))
        (AgentState.mk [Node.mk "node-2" "192.168.1.102"] ∅)
        "node-2" "r").1
      = AgentState.mk [Node.mk "node-2" "192.168.1.102"] ∅ ∧
    (handle_critical_failure
        (RemediationOutcome.mk true true false (Node.mk "node-new-2" "192.168.1.202"))
        (Node.mk "node-2" "192.168.1.102") "r").1 = none ∧
    HealerCall.join "192.168.1.202" ∈ (_handle_critical_node
        (RemediationOutcome.mk true true false (Node.mk "node-new-2" "192.168.1.202"))
        (AgentState.mk [Node.mk "node-2" "192.168.1.102"] ∅)
        "node-2" "r").2 :=
  critical_leave_fail_state
    (RemediationOutcome.mk true true false (Node.mk "node-new-2" "192.168.1.202"))
    (AgentState.mk [Node.mk "node-2" "192.168.1.102"] ∅)
    "node-2" "r" (Node.mk "node-2" "192.168.1.102")
    (by decide) rfl rfl rfl

/-- Claim C6: for a node present in the cluster state and already in the
greylist that classifies as Warning, the action is a follow-up
notification only: the agent state is unchanged, the effect trace is
exactly one follow-up warning notification, and no provisioning, join or
leave call is made. -/
theorem warning_realert_frame (out : RemediationOutcome) (st : AgentState)
    (nid reason : String) (cfg : Node)
    (hf : _find_node_config st.current_nodes nid = some cfg)
    (hg : nid ∈ st.greylisted_nodes) :
    (_handle_warning_node out st nid reason).1 = st ∧
    (_handle_warning_node out st nid reason).2
      = [HealerCall.notify RECIPIENT_EMAIL nid reason "warning" true] ∧
    ∀ c ∈ (_handle_warning_node out st nid reason).2, isMembershipCall c = false := by
  rw [handle_warning_realert out st nid reason cfg hf hg]
  have h2 : send_alert ALERTING_ENABLED RECIPIENT_EMAIL nid reason "warning" true
      = [HealerCall.notify RECIPIENT_EMAIL nid reason "warning" true] := rfl
  refine ⟨rfl, h2, ?_⟩
  intro c hc
  rw [h2, List.mem_singleton] at hc
  subst hc
  rfl

/-- Witness for C6 at a concrete greylisted node. -/
theorem warning_realert_frame_witness :
    (_handle_warning_node
        (RemediationOutcome.mk true true true (Node.mk "node-new-1" "192.168.1.201"))
        (AgentState.mk [Node.mk "node-1" "192.168.1.101"] {"node-1"})
        "node-1" "r").1
      = AgentState.mk [Node.mk "node-1" "192.168.1.101"] {"node-1"} ∧
    (_handle_warning_node
        (RemediationOutcome.mk true true true (Node.mk "node-new-1" "192.168.1.201"))
        (AgentState.mk [Node.mk "node-1" "192.168.1.101"] {"node-1"})
        "node-1" "r").2
      = [HealerCall.notify RECIPIENT_EMAIL "node-1" "r" "warning" true] ∧
    ∀ c ∈ (_handle_warning_node
        (RemediationOutcome.mk true true true (Node.mk "node-new-1" "192.168.1.201"))
        (AgentState.mk [Node.mk "node-1" "192.168.1.101"] {"node-1"})
        "node-1" "r").2, isMembershipCall c = false :=
  warning_realert_frame
    (RemediationOutcome.mk true true true (Node.mk "node-new-1" "192.168.1.201"))
    (AgentState.mk [Node.mk "node-1" "192.168.1.101"] {"node-1"})
    "node-1" "r" (Node.mk "node-1" "192.168.1.101")
    (by decide) (by decide)

/-- Claim C7: a node whose severity is "none" takes the healthy branch:
when greylisted, its id is removed from the greylist with current_nodes
unchanged and an empty effect trace (no provision, join, leave or notify
call); when not greylisted, the state is unchanged with an empty trace. -/
theorem recover_on_none (nid : String) (p : Prediction) (out : RemediationOutcome)
    (st : AgentState) (h : p.severity = "none") :
    (nid ∈ st.greylisted_nodes →
      process_reports [CycleInput.mk nid p out] st
        = (AgentState.mk st.current_nodes (st.greylisted_nodes.erase nid), [])) ∧
    (nid ∉ st.greylisted_nodes →
      process_reports [CycleInput.mk nid p out] st = (st, [])) := by
  have h1 : process_reports [CycleInput.mk nid p out] st
      = (_handle_healthy st nid, []) := by
    simp [process_reports, h]
  constructor
  · intro hg
    rw [h1]
    unfold _handle_healthy
    rw [if_pos hg]
  · intro hg
    rw [h1]
    unfold _handle_healthy
    rw [if_neg hg]

/-- Witness for C7 at a concrete greylisted node. -/
theorem recover_on_none_witness :
    process_reports
      [CycleInput.mk "node-1" (Prediction.mk "none" "r")
        (RemediationOutcome.mk true true true (Node.mk "node-new-1" "192.168.1.201"))]
      (AgentState.mk [Node.mk "node-1" "192.168.1.101"] {"node-1"})
    = (AgentState.mk [Node.mk "node-1" "192.168.1.101"]
        (({"node-1"} : Finset String).erase "node-1"), []) :=
  (recover_on_none "node-1" (Prediction.mk "none" "r")
    (RemediationOutcome.mk true true true (Node.mk "node-new-1" "192.168.1.201"))
    (AgentState.mk [Node.mk "node-1" "192.168.1.101"] {"node-1"})
    rfl).1 (by decide)

/-- Claim C9: every failing classification call in live mode (connection
error, rate limit, authentication failure, malformed JSON, any other
exception) yields a prediction whose severity is "none", and processing a
node with that prediction takes the healthy branch and continues with the
remaining reports — the failure never aborts the cycle. -/
theorem classifier_failure_fail_safe (o : ClassifierOutcome)
    (h : classifierFailed o = true) :
    (predict_failure_live o).severity = "none" ∧
    ∀ (nid : String) (out : RemediationOutcome) (rest : List CycleInput)
      (st : AgentState),
      process_reports (CycleInput.mk nid (predict_failure_live o) out :: rest) st
        = process_reports rest (_handle_healthy st nid) := by
  have hs : (predict_failure_live o).severity = "none" := by
    cases o
    · simp [classifierFailed] at h
    all_goals rfl
  refine ⟨hs, ?_⟩
  intro nid out rest st
  simp [process_reports, hs]

/-- Witness for C9 at a concrete failed classification. -/
theorem classifier_failure_fail_safe_witness :
    (predict_failure_live ClassifierOutcome.apiConnectionError).severity = "none" ∧
    process_reports
      [CycleInput.mk "node-1" (predict_failure_live ClassifierOutcome.apiConnectionError)
        (RemediationOutcome.mk true true true (Node.mk "node-new-1" "192.168.1.201"))]
      (AgentState.mk [Node.mk "node-1" "192.168.1.101"] ∅)
    = process_reports []
        (_handle_healthy (AgentState.mk [Node.mk "node-1" "192.168.1.101"] ∅) "node-1") :=
  ⟨(classifier_failure_fail_safe ClassifierOutcome.apiConnectionError rfl).1,
   (classifier_failure_fail_safe ClassifierOutcome.apiConnectionError rfl).2 "node-1"
     (RemediationOutcome.mk true true true (Node.mk "node-new-1" "192.168.1.201")) []
     (AgentState.mk [Node.mk "node-1" "192.168.1.101"] ∅)⟩

/-- Claim C10: for a health report whose node id is not among the current
nodes, both the critical handler and the warning handler return early:
the agent state is unchanged and no healer call at all is made. -/
theorem unknown_node_no_change (out : RemediationOutcome) (st : AgentState)
    (nid reason : String)
    (hf : _find_node_config st.current_nodes nid = none) :
    _handle_critical_node out st nid reason = (st, []) ∧
    _handle_warning_node out st nid reason = (st, []) :=
  ⟨handle_critical_no_cfg out st nid reason hf,
   handle_warning_no_cfg out st nid reason hf⟩

/-- Witness for C10 at a concrete unknown node id. -/
theorem unknown_node_no_change_witness :
    _handle_critical_node
        (RemediationOutcome.mk true true true (Node.mk "node-new-1" "192.168.1.201"))
        (AgentState.mk [Node.mk "node-1" "192.168.1.101"] ∅) "node-9" "r"
      = (AgentState.mk [Node.mk "node-1" "192.168.1.101"] ∅, []) ∧
    _handle_warning_node
        (RemediationOutcome.mk true true true (Node.mk "node-new-1" "192.168.1.201"))
        (AgentState.mk [Node.mk "node-1" "192.168.1.101"] ∅) "node-9" "r"
      = (AgentState.mk [Node.mk "node-1" "192.168.1.101"] ∅, []) :=
  unknown_node_no_change
    (RemediationOutcome.mk true true true (Node.mk "node-new-1" "192.168.1.201"))
    (AgentState.mk [Node.mk "node-1" "192.168.1.101"] ∅) "node-9" "r" (by decide)
